import Mathlib

/-!
Shallow embedding of the reconciliation core of `main.go` from
`vault-operator-helper`: the `updateConfigMap` pass, its helpers
`getFilteredNamespaces`, `createConfigMap`, `killMainContainer` and
`getMainContainerPID`, over an explicit environment of platform results.
A pass is modelled as a pure function from that environment to a trace of
store calls, signaler invocations and runtime panics.
-/

namespace VaultOperatorHelper

/-- The command-line flags defined in `init` of `main.go`. -/
structure Flags where
  configMapName : String
  configMapNamespace : String
  labelSelector : String
  watchKey : String
  mainContainerName : String
deriving Repr, DecidableEq

/-- The flag defaults declared in `init` of `main.go`. -/
def defaultFlags : Flags :=
  { configMapName := "watch-namespace-config"
    configMapNamespace := "vault"
    labelSelector := "foo=bar"
    watchKey := "WATCH_NAMESPACE"
    mainContainerName := "main-container" }

/-- A ConfigMap as `main.go` uses it: identifying metadata plus the
string-to-string data map. `data = none` models a nil Go map, which a
stored object fetched from the API may carry. -/
structure ConfigMap where
  nspace : String
  name : String
  data : Option (List (String × String))
deriving Repr, DecidableEq

/-- Go map read `m[k]`: on a nil map or a missing key it yields the zero
value `""`, as `cm.Data[watchKey]` does in `updateConfigMap`. -/
def goMapGet (d : Option (List (String × String))) (k : String) : String :=
  match d with
  | none => ""
  | some l => (l.lookup k).getD ""

/-- Replace the binding of `k` in an association list, appending when
absent; stands in for a Go map store with unique keys. -/
def setKey : List (String × String) → String → String → List (String × String)
  | [], k, v => [(k, v)]
  | (k', v') :: rest, k, v =>
      if k' = k then (k, v) :: rest else (k', v') :: setKey rest k v

/-- Go map write `m[k] = v`: writing to a nil map is a runtime panic,
modelled as `none`; this is what `cm.Data[watchKey] = newValue` does in
`updateConfigMap` when the fetched object has a nil data map. -/
def goMapSet (d : Option (List (String × String))) (k v : String) :
    Option (List (String × String)) :=
  match d with
  | none => none
  | some l => some (setKey l k v)

/-- Result of the ConfigMap `Get` call, as the API reports it. The Go code
only inspects `err != nil`, so it cannot tell `notFound` from
`otherError`; the environment keeps the distinction so claims about the
two can be stated. -/
inductive GetResult where
  | found (cm : ConfigMap)
  | notFound
  | otherError
deriving Repr, DecidableEq

/-- Result of the ConfigMap `Update` call. -/
inductive UpdateResult where
  | ok
  | conflict
  | transientError
deriving Repr, DecidableEq

/-- Result of the ConfigMap `Create` call; `main.go` only logs a failure. -/
inductive CreateResult where
  | ok
  | alreadyExists
  | transientError
deriving Repr, DecidableEq

/-- The environment of one reconciliation pass: what each external call
would return. `listResult` is the namespace-name list in the order the
lister returns it (`none` = query error); `pgrepOutput` is the
whitespace-split output of `pgrep -f` (`none` = command error);
`killOk` is whether the `kill` command succeeds. -/
structure Env where
  listResult : Option (List String)
  getResult : GetResult
  updateResult : UpdateResult
  createResult : CreateResult
  pgrepOutput : Option (List String)
  killOk : Bool
deriving Repr, DecidableEq

/-- The observable effects of one pass: every `Create` call issued, every
`Update` call issued (with its argument), how many times the signaler
(`killMainContainer`) was invoked, how many `kill` commands ran, and
whether the pass hit a runtime panic. -/
structure Trace where
  creates : List ConfigMap
  updates : List ConfigMap
  signalerCalls : Nat
  kills : Nat
  panicked : Bool
deriving Repr, DecidableEq

/-- The trace of a pass that performs no external effect. -/
def Trace.empty : Trace :=
  { creates := [], updates := [], signalerCalls := 0, kills := 0, panicked := false }

/-- `getMainContainerPID` of `main.go`: run `pgrep -f name`; a command
error yields an error, otherwise the first whitespace field is the PID,
and an empty field list is the "PID not found" error. -/
def getMainContainerPID (pgrepOutput : Option (List String)) : Option String :=
  match pgrepOutput with
  | none => none
  | some [] => none
  | some (p :: _) => some p

/-- `killMainContainer` of `main.go`: look up the companion PID and send
`SIGTERM`; both a lookup failure and a kill failure are only logged.
Returns how many `kill` commands were executed. -/
def killMainContainer (e : Env) : Nat :=
  match getMainContainerPID e.pgrepOutput with
  | none => 0
  | some _ => 1

/-- `createConfigMap` of `main.go`: the object it builds for the `Create`
call — the configured namespace and name, and a one-entry data map binding
the watch key to the given value. -/
def newConfigMapObj (cfg : Flags) (value : String) : ConfigMap :=
  { nspace := cfg.configMapNamespace
    name := cfg.configMapName
    data := some [(cfg.watchKey, value)] }

/-- `updateConfigMap` of `main.go`, one reconciliation pass (the mutex is
outside the model; passes are serialized). List the filtered namespaces
(abort on error), join them with `,` in listing order, `Get` the
ConfigMap; on ANY `Get` error call `createConfigMap` and return; if the
stored value equals the new value return; otherwise assign the key (panic
on a nil map), call `Update`, and on `Update` success invoke
`killMainContainer`. -/
def updateConfigMapPass (cfg : Flags) (e : Env) : Trace :=
  match e.listResult with
  | none => Trace.empty
  | some namespaces =>
    let newValue := String.intercalate "," namespaces
    match e.getResult with
    | GetResult.notFound =>
        { Trace.empty with creates := [newConfigMapObj cfg newValue] }
    | GetResult.otherError =>
        { Trace.empty with creates := [newConfigMapObj cfg newValue] }
    | GetResult.found cm =>
      if goMapGet cm.data cfg.watchKey = newValue then Trace.empty
      else
        match goMapSet cm.data cfg.watchKey newValue with
        | none => { Trace.empty with panicked := true }
        | some d2 =>
          let cm2 : ConfigMap := { cm with data := some d2 }
          match e.updateResult with
          | UpdateResult.ok =>
              { creates := []
                updates := [cm2]
                signalerCalls := 1
                kills := killMainContainer e
                panicked := false }
          | _ => { Trace.empty with updates := [cm2] }

/-! Concrete stores and environments used by the closed theorems below. -/

/-- A stored ConfigMap whose watched value is `"a,b"`. -/
def cmAB : ConfigMap :=
  ⟨"vault", "watch-namespace-config", some [("WATCH_NAMESPACE", "a,b")]⟩

/-- Environment for the reorder scenario: stored value `"a,b"`, lister
returns the same two names in the order `["b", "a"]`, all calls succeed. -/
def envReorder : Env :=
  { listResult := some ["b", "a"], getResult := GetResult.found cmAB
    updateResult := UpdateResult.ok, createResult := CreateResult.ok
    pgrepOutput := some ["123"], killOk := true }

/-- Environment where the ConfigMap `Get` fails with an error other than
not-found (a transient store error) while the lister succeeds. -/
def envGetOtherError : Env :=
  { listResult := some ["a"], getResult := GetResult.otherError
    updateResult := UpdateResult.ok, createResult := CreateResult.ok
    pgrepOutput := some ["123"], killOk := true }

/-- First pass of the repeat-run scenario: members listed `["a", "b"]`,
store empty, create succeeds. -/
def envRun1 : Env :=
  { listResult := some ["a", "b"], getResult := GetResult.notFound
    updateResult := UpdateResult.ok, createResult := CreateResult.ok
    pgrepOutput := some ["123"], killOk := true }

/-- Second pass of the repeat-run scenario: the same membership set listed
in the other order `["b", "a"]`, and `Get` returns exactly the object the
first pass created. -/
def envRun2 : Env :=
  { listResult := some ["b", "a"]
    getResult := GetResult.found (newConfigMapObj defaultFlags "a,b")
    updateResult := UpdateResult.ok, createResult := CreateResult.ok
    pgrepOutput := some ["123"], killOk := true }

/-- First pass of the empty-to-nonempty scenario: no members, store absent. -/
def envEmpty1 : Env :=
  { listResult := some [], getResult := GetResult.notFound
    updateResult := UpdateResult.ok, createResult := CreateResult.ok
    pgrepOutput := some ["42"], killOk := true }

/-- Second pass of the empty-to-nonempty scenario: members `["a", "b"]`,
`Get` returns the object created by the first pass (value `""`). -/
def envEmpty2 : Env :=
  { listResult := some ["a", "b"]
    getResult := GetResult.found (newConfigMapObj defaultFlags "")
    updateResult := UpdateResult.ok, createResult := CreateResult.ok
    pgrepOutput := some ["42"], killOk := true }

/-- A stored ConfigMap fetched with a nil data map. -/
def cmNilData : ConfigMap := ⟨"vault", "watch-namespace-config", none⟩

/-- Environment where `Get` returns an object with a nil data map and the
computed value is nonempty. -/
def envNilData : Env :=
  { listResult := some ["a"], getResult := GetResult.found cmNilData
    updateResult := UpdateResult.ok, createResult := CreateResult.ok
    pgrepOutput := some ["123"], killOk := true }

/-- A stored ConfigMap with a stale watched value and one unrelated key. -/
def cmStale : ConfigMap :=
  ⟨"vault", "watch-namespace-config", some [("WATCH_NAMESPACE", ""), ("OTHER", "x")]⟩

/-- Environment with a stale stored value where every call succeeds. -/
def envUpd : Env :=
  { listResult := some ["a"], getResult := GetResult.found cmStale
    updateResult := UpdateResult.ok, createResult := CreateResult.ok
    pgrepOutput := some ["9"], killOk := true }

/-- Like `envUpd` but the signaler's `pgrep` finds zero processes. -/
def envNoProc : Env :=
  { listResult := some ["a"], getResult := GetResult.found cmStale
    updateResult := UpdateResult.ok, createResult := CreateResult.ok
    pgrepOutput := some [], killOk := true }

/-- Environment whose lister query fails. -/
def envListFail : Env :=
  { listResult := none, getResult := GetResult.notFound
    updateResult := UpdateResult.ok, createResult := CreateResult.ok
    pgrepOutput := some ["9"], killOk := true }

/-- Environment for the create path with one member. -/
def envCreate : Env :=
  { listResult := some ["a"], getResult := GetResult.notFound
    updateResult := UpdateResult.ok, createResult := CreateResult.ok
    pgrepOutput := some ["9"], killOk := true }

/-! Helper lemmas about the Go map model and the signaler. -/

/-- After `setKey`, looking up the written key yields the new value. -/
theorem lookup_setKey_self (l : List (String × String)) (k v : String) :
    (setKey l k v).lookup k = some v := by
  induction l with
  | nil => simp [setKey, List.lookup]
  | cons p rest ih =>
    obtain ⟨k', v'⟩ := p
    by_cases h : k' = k
    · subst h
      simp [setKey, List.lookup]
    · have hb : (k == k') = false := beq_eq_false_iff_ne.mpr (Ne.symm h)
      simp [setKey, h, List.lookup, hb, ih]

/-- `setKey` leaves the lookup of every other key unchanged. -/
theorem lookup_setKey_ne (l : List (String × String)) (k v k2 : String)
    (h : k2 ≠ k) : (setKey l k v).lookup k2 = l.lookup k2 := by
  induction l with
  | nil =>
    have hb : (k2 == k) = false := beq_eq_false_iff_ne.mpr h
    simp [setKey, List.lookup, hb]
  | cons p rest ih =>
    obtain ⟨k', v'⟩ := p
    by_cases hk : k' = k
    · subst hk
      have hb : (k2 == k') = false := beq_eq_false_iff_ne.mpr h
      simp [setKey, List.lookup, hb]
    · cases hb : (k2 == k') <;> simp [setKey, hk, List.lookup, hb, ih]

/-- The signaler executes at most one `kill` command per invocation. -/
theorem killMainContainer_le_one (e : Env) : killMainContainer e ≤ 1 := by
  unfold killMainContainer
  cases h : getMainContainerPID e.pgrepOutput <;> simp

/-- Claim C1, evaluated on the code at the failing input: with stored
value `"a,b"` and the lister returning the same name set in the order
`["b", "a"]`, `updateConfigMap` joins in listing order and computes
`"b,a"`, so the pass issues an `Update` (a write) and invokes the signaler
once — not the no-write, no-signal outcome the claim requires. The
canonical value is therefore not a pure function of the set contents. -/
theorem c1_reorder_writes_and_signals :
    (updateConfigMapPass defaultFlags envReorder).updates =
      [⟨"vault", "watch-namespace-config", some [("WATCH_NAMESPACE", "b,a")]⟩] ∧
    (updateConfigMapPass defaultFlags envReorder).signalerCalls = 1 := by
  decide

/-- Claim C2, evaluated on the code at the failing input: when the
ConfigMap `Get` fails with an error other than not-found (a transient
store error), `updateConfigMap` only tests `err != nil` and attempts a
`Create` anyway instead of aborting the pass. -/
theorem c2_transient_get_error_creates :
    (updateConfigMapPass defaultFlags envGetOtherError).creates =
      [newConfigMapObj defaultFlags "a"] := by
  decide

/-- Claim C3, evaluated on the code at the failing input: for the
membership set `{a, b}` with no intervening change, a first pass listing
`["a", "b"]` creates the object with `"a,b"`, and a second pass whose
`Get` returns exactly that created object but whose lister returns
`["b", "a"]` issues a second write (an `Update` to `"b,a"`) — two writes
in total, not the one the claim requires. -/
theorem c3_second_pass_writes_again :
    (updateConfigMapPass defaultFlags envRun1).creates =
      [newConfigMapObj defaultFlags "a,b"] ∧
    envRun2.getResult = GetResult.found (newConfigMapObj defaultFlags "a,b") ∧
    ((updateConfigMapPass defaultFlags envRun1).creates.length +
      (updateConfigMapPass defaultFlags envRun1).updates.length) +
    ((updateConfigMapPass defaultFlags envRun2).creates.length +
      (updateConfigMapPass defaultFlags envRun2).updates.length) = 2 := by
  decide

/-- Claim C8: with no members the computed value is `""`, so a first
pass finding the store absent creates the object with value `""` and does
not signal; a second pass with members listed `["a", "b"]` and `Get`
returning the created object updates the stored value to `"a,b"` and
invokes the signaler exactly once, with no create. -/
theorem c8_empty_to_nonempty :
    updateConfigMapPass defaultFlags envEmpty1 =
      { creates := [newConfigMapObj defaultFlags ""], updates := []
        signalerCalls := 0, kills := 0, panicked := false } ∧
    (updateConfigMapPass defaultFlags envEmpty2).updates =
      [⟨"vault", "watch-namespace-config", some [("WATCH_NAMESPACE", "a,b")]⟩] ∧
    (updateConfigMapPass defaultFlags envEmpty2).signalerCalls = 1 ∧
    (updateConfigMapPass defaultFlags envEmpty2).creates = [] := by
  decide

/-- Claim C10, counterexample: for a found ConfigMap whose data map is
nil and a nonempty computed value, the comparison reads `""` and differs,
and the assignment `cm.Data[watchKey] = newValue` then writes to a nil Go
map — a runtime panic, so the compare-and-update step does NOT complete
without a runtime fault. -/
theorem c10_nil_map_assignment_panics :
    cmNilData.data = none ∧
    (updateConfigMapPass defaultFlags envNilData).panicked = true := by
  decide

/-- Claim C4: in a pass whose `Update` call succeeds (the stored object
was found with a non-nil data map and its value differs from the computed
one, and the store reports success) the signaler is invoked exactly once;
and a pass in which the stored value already equals the computed value
invokes the signaler zero times and issues no update. -/
theorem c4_change_triggers_signal (cfg : Flags) (e : Env) (ns : List String)
    (cm : ConfigMap) (l : List (String × String))
    (hl : e.listResult = some ns) (hg : e.getResult = GetResult.found cm) :
    (cm.data = some l →
      goMapGet cm.data cfg.watchKey ≠ String.intercalate "," ns →
      e.updateResult = UpdateResult.ok →
      (updateConfigMapPass cfg e).signalerCalls = 1) ∧
    (goMapGet cm.data cfg.watchKey = String.intercalate "," ns →
      (updateConfigMapPass cfg e).signalerCalls = 0 ∧
      (updateConfigMapPass cfg e).updates = []) := by
  constructor
  · intro hd hne hok
    rw [hd] at hne
    simp [updateConfigMapPass, hl, hg, hne, hd, goMapSet, hok]
  · intro heq
    simp [updateConfigMapPass, hl, hg, heq, Trace.empty]

/-- Witness for C4 at a concrete input: stored value `""`, members
`["a"]`, update succeeds — one signaler invocation; and at a no-op input
(stored `"a,b"`, members listed `["a", "b"]`) — zero invocations and no
update. -/
theorem c4_witness :
    (updateConfigMapPass defaultFlags envUpd).signalerCalls = 1 :=
  (c4_change_triggers_signal defaultFlags envUpd ["a"] cmStale
    [("WATCH_NAMESPACE", ""), ("OTHER", "x")] rfl rfl).1 rfl (by decide) rfl

/-- Claim C5: in a pass where the lister succeeds and the `Get` reports
not-found, the pass performs exactly one create call (with the computed
value), zero update calls, and does not invoke the signaler. -/
theorem c5_create_no_update_no_signal (cfg : Flags) (e : Env)
    (ns : List String)
    (hl : e.listResult = some ns) (hg : e.getResult = GetResult.notFound) :
    (updateConfigMapPass cfg e).creates =
      [newConfigMapObj cfg (String.intercalate "," ns)] ∧
    (updateConfigMapPass cfg e).updates = [] ∧
    (updateConfigMapPass cfg e).signalerCalls = 0 := by
  simp [updateConfigMapPass, hl, hg, Trace.empty]

/-- Witness for C5 at a concrete input: members `["a"]`, store absent. -/
theorem c5_witness :
    (updateConfigMapPass defaultFlags envCreate).creates =
      [newConfigMapObj defaultFlags "a"] ∧
    (updateConfigMapPass defaultFlags envCreate).updates = [] ∧
    (updateConfigMapPass defaultFlags envCreate).signalerCalls = 0 :=
  c5_create_no_update_no_signal defaultFlags envCreate ["a"] rfl rfl

/-- Claim C6: a lister failure makes the pass the empty trace — it aborts
before any store write; a pass that attempted an `Update` which did not
succeed (conflict or transient error) invokes no signaler and completes
without a runtime fault (the function returns normally, the process is
not terminated); and no call is retried within a pass: at most one store
write, at most one signaler invocation, at most one kill. -/
theorem c6_nonfatal_abort (cfg : Flags) (e : Env) :
    (e.listResult = none → updateConfigMapPass cfg e = Trace.empty) ∧
    ((updateConfigMapPass cfg e).updates ≠ [] →
      e.updateResult ≠ UpdateResult.ok →
      (updateConfigMapPass cfg e).signalerCalls = 0 ∧
      (updateConfigMapPass cfg e).panicked = false) ∧
    ((updateConfigMapPass cfg e).creates.length +
       (updateConfigMapPass cfg e).updates.length ≤ 1 ∧
     (updateConfigMapPass cfg e).signalerCalls ≤ 1 ∧
     (updateConfigMapPass cfg e).kills ≤ 1) := by
  obtain ⟨lr, gr, ur, cr, pg, ko⟩ := e
  cases lr with
  | none => simp [updateConfigMapPass, Trace.empty]
  | some ns =>
    cases gr with
    | notFound => simp [updateConfigMapPass, Trace.empty]
    | otherError => simp [updateConfigMapPass, Trace.empty]
    | found cm =>
      by_cases hv : goMapGet cm.data cfg.watchKey = String.intercalate "," ns
      · simp [updateConfigMapPass, hv, Trace.empty]
      · cases hd : goMapSet cm.data cfg.watchKey (String.intercalate "," ns) with
        | none => simp [updateConfigMapPass, hv, hd, Trace.empty]
        | some d2 =>
          cases ur with
          | ok =>
            refine ⟨by simp, by simp, ?_⟩
            simp [updateConfigMapPass, hv, hd, Trace.empty]
            exact killMainContainer_le_one
              ⟨some ns, GetResult.found cm, UpdateResult.ok, cr, pg, ko⟩
          | conflict => simp [updateConfigMapPass, hv, hd, Trace.empty]
          | transientError => simp [updateConfigMapPass, hv, hd, Trace.empty]

/-- Witness for C6 at a concrete input: a pass with a failed lister query
is the empty trace, and a conflicting update at `envUpd`'s store state
signals nobody. -/
theorem c6_witness :
    updateConfigMapPass defaultFlags envListFail = Trace.empty :=
  (c6_nonfatal_abort defaultFlags envListFail).1 rfl

/-- Claim C7: in a pass whose update succeeds but whose signaler finds
zero matching processes, the pass still completes normally (no panic, the
error is only logged), the signaler is invoked once but delivers no kill,
and the committed write stays: the single `Update` with the new value is
the pass's only store call — nothing is rolled back after the failed
signal step. -/
theorem c7_missing_companion_nonfatal (cfg : Flags) (e : Env)
    (ns : List String) (cm : ConfigMap) (l : List (String × String))
    (hl : e.listResult = some ns) (hg : e.getResult = GetResult.found cm)
    (hd : cm.data = some l)
    (hne : goMapGet cm.data cfg.watchKey ≠ String.intercalate "," ns)
    (hu : e.updateResult = UpdateResult.ok)
    (hp : e.pgrepOutput = some []) :
    (updateConfigMapPass cfg e).updates =
      [{ cm with data := some (setKey l cfg.watchKey (String.intercalate "," ns)) }] ∧
    (updateConfigMapPass cfg e).creates = [] ∧
    (updateConfigMapPass cfg e).signalerCalls = 1 ∧
    (updateConfigMapPass cfg e).kills = 0 ∧
    (updateConfigMapPass cfg e).panicked = false := by
  rw [hd] at hne
  simp [updateConfigMapPass, hl, hg, hd, hne, goMapSet, hu,
    killMainContainer, getMainContainerPID, hp]

/-- Witness for C7 at a concrete input: stored value `""`, members
`["a"]`, update succeeds, `pgrep` output is empty. -/
theorem c7_witness :
    (updateConfigMapPass defaultFlags envNoProc).updates =
      [{ cmStale with data := some (setKey [("WATCH_NAMESPACE", ""), ("OTHER", "x")]
          defaultFlags.watchKey (String.intercalate "," ["a"])) }] ∧
    (updateConfigMapPass defaultFlags envNoProc).creates = [] ∧
    (updateConfigMapPass defaultFlags envNoProc).signalerCalls = 1 ∧
    (updateConfigMapPass defaultFlags envNoProc).kills = 0 ∧
    (updateConfigMapPass defaultFlags envNoProc).panicked = false :=
  c7_missing_companion_nonfatal defaultFlags envNoProc ["a"] cmStale
    [("WATCH_NAMESPACE", ""), ("OTHER", "x")] rfl rfl rfl (by decide) rfl rfl

/-- Claim C9: whenever the update path runs on a found object (value
differs, non-nil data map), the single object handed to the store
`Update` call keeps the original namespace and name, holds the computed
value at the watched key, and reads identically to the original at every
other key. -/
theorem c9_update_frame (cfg : Flags) (e : Env) (ns : List String)
    (cm : ConfigMap) (l : List (String × String))
    (hl : e.listResult = some ns) (hg : e.getResult = GetResult.found cm)
    (hd : cm.data = some l)
    (hne : goMapGet cm.data cfg.watchKey ≠ String.intercalate "," ns) :
    ∃ cm2, (updateConfigMapPass cfg e).updates = [cm2] ∧
      cm2.nspace = cm.nspace ∧ cm2.name = cm.name ∧
      goMapGet cm2.data cfg.watchKey = String.intercalate "," ns ∧
      ∀ k, k ≠ cfg.watchKey → goMapGet cm2.data k = goMapGet cm.data k := by
  rw [hd] at hne
  refine ⟨{ cm with
      data := some (setKey l cfg.watchKey (String.intercalate "," ns)) },
    ?_, rfl, rfl, ?_, ?_⟩
  · cases hu : e.updateResult <;>
      simp [updateConfigMapPass, hl, hg, hd, hne, goMapSet, hu, Trace.empty]
  · simp [goMapGet, lookup_setKey_self]
  · intro k hk
    simp [goMapGet, hd, lookup_setKey_ne l cfg.watchKey _ k hk]

/-- Witness for C9 at a concrete input: stored data
`[("WATCH_NAMESPACE", ""), ("OTHER", "x")]`, members `["a"]` — the update
argument keeps `("OTHER", "x")` and the identifying metadata. -/
theorem c9_witness :
    ∃ cm2, (updateConfigMapPass defaultFlags envUpd).updates = [cm2] ∧
      cm2.nspace = cmStale.nspace ∧ cm2.name = cmStale.name ∧
      goMapGet cm2.data defaultFlags.watchKey = String.intercalate "," ["a"] ∧
      ∀ k, k ≠ defaultFlags.watchKey → goMapGet cm2.data k = goMapGet cmStale.data k :=
  c9_update_frame defaultFlags envUpd ["a"] cmStale
    [("WATCH_NAMESPACE", ""), ("OTHER", "x")] rfl rfl rfl (by decide)

/-- Claim C10 as amended: on a found object the compare-and-update step
is fault-free whenever the data map is non-nil; with a nil data map the
comparison itself is safe — it reads the missing key as `""`, so an empty
computed value makes the pass a fault-free no-op — but a nonempty
computed value reaches the assignment to the nil map, which faults. -/
theorem c10_amended_nil_map (cfg : Flags) (e : Env) (ns : List String)
    (cm : ConfigMap)
    (hl : e.listResult = some ns) (hg : e.getResult = GetResult.found cm) :
    (∀ l, cm.data = some l → (updateConfigMapPass cfg e).panicked = false) ∧
    (cm.data = none → String.intercalate "," ns = "" →
      updateConfigMapPass cfg e = Trace.empty) ∧
    (cm.data = none → String.intercalate "," ns ≠ "" →
      (updateConfigMapPass cfg e).panicked = true) := by
  refine ⟨?_, ?_, ?_⟩
  · intro l hd
    by_cases hv : goMapGet cm.data cfg.watchKey = String.intercalate "," ns
    · simp [updateConfigMapPass, hl, hg, hv, Trace.empty]
    · rw [hd] at hv
      cases hu : e.updateResult <;>
        simp [updateConfigMapPass, hl, hg, hd, hv, goMapSet, hu, Trace.empty]
  · intro hd hemp
    have hv : goMapGet cm.data cfg.watchKey = String.intercalate "," ns := by
      rw [hd, hemp]
      simp [goMapGet]
    simp [updateConfigMapPass, hl, hg, hv]
  · intro hd hne
    have hv : goMapGet (none : Option (List (String × String))) cfg.watchKey ≠
        String.intercalate "," ns := by
      simpa [goMapGet] using Ne.symm hne
    simp [updateConfigMapPass, hl, hg, hd, hv, goMapSet]

/-- Witness for C10's amended claim at a concrete input: a non-nil data
map makes the update path fault-free. -/
theorem c10_witness :
    (updateConfigMapPass defaultFlags envUpd).panicked = false :=
  (c10_amended_nil_map defaultFlags envUpd ["a"] cmStale rfl rfl).1
    [("WATCH_NAMESPACE", ""), ("OTHER", "x")] rfl

end VaultOperatorHelper
